import Mathlib

/-!
Shallow embedding of the reminder scheduling layer of the
AI-Personal-Trainer-Mobile service: the reminder database service
(`reminderService` in the database service layer) and the Express routes in
`service/routes/reminders.js`, together with the date/time validators of
`calendarEventService` that the boundary contract refers to.

Moments are modelled as integer timestamps (milliseconds since the Unix
epoch); the persistent store is a list of reminder records, and Prisma
operations are explicit state-passing functions.  Prisma's `update` and
`delete` throw (error code P2025) when no record matches the id; that is
modelled with `Except`.
-/

namespace ReminderApp

/-- Milliseconds in one day, the unit used by the JavaScript `Date` timeline. -/
def msPerDay : Int := 86400000

/-- Adding `d` days to a timestamp, as `endDate.setDate(endDate.getDate() + days)`
does on the millisecond timeline (time-zone transitions ignored). -/
def addDays (t d : Int) : Int := t + d * msPerDay

/-- A stored reminder record, following the fields the service reads and
writes: `id`, `userId`, `title`, `dueDate` (a stored DateTime), `repeatType`
(a string, `"none"` for one-time reminders), optional `repeatUntil`,
`interval`, and the `completed` flag.  The schema has no
`lastCompletedOccurrence` column. -/
structure Reminder where
  id : String
  userId : String
  title : String
  dueDate : Int
  repeatType : String
  repeatUntil : Option Int
  interval : Int
  completed : Bool
  deriving DecidableEq, Repr

/-- Lookup of a record by primary key, as Prisma's `where: { id }`. -/
def findReminder (store : List Reminder) (rid : String) : Option Reminder :=
  store.find? (fun r => r.id == rid)

/-- Writing an updated record back: every row whose id matches is replaced. -/
def replaceReminder (store : List Reminder) (rid : String) (r2 : Reminder) :
    List Reminder :=
  store.map (fun x => if x.id == rid then r2 else x)

/-- Prisma `reminder.update({ where: { id }, data })`: applies `f` to the
matching record, or throws P2025 when the record does not exist. -/
def prismaReminderUpdate (store : List Reminder) (rid : String)
    (f : Reminder → Reminder) : Except String (List Reminder × Reminder) :=
  match findReminder store rid with
  | none => Except.error "P2025: record to update not found"
  | some r => Except.ok (replaceReminder store rid (f r), f r)

/-- Prisma `reminder.delete({ where: { id } })`: removes the matching record,
or throws P2025 when the record does not exist. -/
def prismaReminderDelete (store : List Reminder) (rid : String) :
    Except String (List Reminder) :=
  match findReminder store rid with
  | none => Except.error "P2025: record to delete does not exist"
  | some _ => Except.ok (store.filter (fun r => !(r.id == rid)))

/-- The service `reminderService.markCompleted(reminderId)`: an update whose
data object is `{ completed: true }`, unconditionally, for every repeat type. -/
def markCompleted (store : List Reminder) (rid : String) :
    Except String (List Reminder × Reminder) :=
  prismaReminderUpdate store rid (fun r => { r with completed := true })

/-- Ordering relation behind `orderBy: { dueDate: 'asc' }`. -/
def dueLE (a b : Reminder) : Prop := a.dueDate ≤ b.dueDate

instance : DecidableRel dueLE :=
  fun a b => inferInstanceAs (Decidable (a.dueDate ≤ b.dueDate))

instance : IsTotal Reminder dueLE :=
  ⟨fun a b => Int.le_total a.dueDate b.dueDate⟩

instance : IsTrans Reminder dueLE :=
  ⟨fun _ _ _ hab hbc => le_trans hab hbc⟩

/-- The service `reminderService.getUpcoming(userId, days)`: rows of the user
with `completed: false` and `dueDate ≤ endDate` where
`endDate = now + days` days, ordered by `dueDate` ascending.  The SQL result
order on equal due dates is unspecified; a stable sort over the store order
models the single-key `orderBy`.  There is no lower bound on `dueDate`. -/
def getUpcoming (store : List Reminder) (uid : String) (now days : Int) :
    List Reminder :=
  List.insertionSort dueLE
    (store.filter (fun r =>
      r.userId == uid && !r.completed && decide (r.dueDate ≤ addDays now days)))

/-- Status and success flag of an HTTP route response. -/
structure RouteResponse where
  status : Nat
  success : Bool
  deriving DecidableEq, Repr

/-- Route `DELETE /api/reminders/:id`: returns 200 on success; any thrown
error (including Prisma's P2025 for a missing record) is caught and reported
as status 500 with `success: false`. -/
def deleteReminderRoute (store : List Reminder) (rid : String) :
    RouteResponse × List Reminder :=
  match prismaReminderDelete store rid with
  | Except.ok st => ({ status := 200, success := true }, st)
  | Except.error _ => ({ status := 500, success := false }, store)

/-- Route `PATCH /api/reminders/:id/complete`: calls `markCompleted`; any
thrown error is caught and reported as status 500. -/
def completeReminderRoute (store : List Reminder) (rid : String) :
    RouteResponse × List Reminder :=
  match markCompleted store rid with
  | Except.ok (st, _) => ({ status := 200, success := true }, st)
  | Except.error _ => ({ status := 500, success := false }, store)

/-- Character class `\d` of the validation regexes: an ASCII digit
(codes 48–57). -/
def isDigitCh (c : Char) : Bool := decide (48 ≤ c.toNat ∧ c.toNat ≤ 57)

/-- Core of the `calendarEventService._validateTime` regex
`([0-1]?[0-9]|2[0-3]):[0-5][0-9]` anchored on both sides, on the character
list of the string.  The first hour alternative matches one digit or a digit
`0`/`1` (codes 48–49) followed by a digit; the second matches `2` (code 50)
followed by `0`–`3` (codes 48–51); minutes are `0`–`5` (codes 48–53)
followed by a digit. -/
def timeRegexMatch (l : List Char) : Bool :=
  match l with
  | [h, c, m1, m2] =>
      isDigitCh h && (c == ':') &&
        decide (48 ≤ m1.toNat ∧ m1.toNat ≤ 53) && isDigitCh m2
  | [h1, h2, c, m1, m2] =>
      ((decide (48 ≤ h1.toNat ∧ h1.toNat ≤ 49) && isDigitCh h2) ||
          ((h1 == '2') && decide (48 ≤ h2.toNat ∧ h2.toNat ≤ 51))) &&
        (c == ':') &&
        decide (48 ≤ m1.toNat ∧ m1.toNat ≤ 53) && isDigitCh m2
  | _ => false

/-- The service `calendarEventService._validateTime(time)`: a falsy (empty)
string yields `null`; a regex mismatch throws; otherwise the string itself is
returned unchanged. -/
def validateTime (time : String) : Except String (Option String) :=
  if time = "" then Except.ok none
  else if timeRegexMatch time.data then Except.ok (some time)
  else Except.error "Invalid time format. Use HH:mm (24-hour format)"

/-- The `calendarEventService._validateDate` regex `\d{4}-\d{2}-\d{2}`
anchored on both sides ('-' is code 45). -/
def dateRegexMatch (s : String) : Bool :=
  match s.data with
  | [y1, y2, y3, y4, s1, m1, m2, s2, d1, d2] =>
      isDigitCh y1 && isDigitCh y2 && isDigitCh y3 && isDigitCh y4 &&
        (s1 == '-') && isDigitCh m1 && isDigitCh m2 &&
        (s2 == '-') && isDigitCh d1 && isDigitCh d2
  | _ => false

/-- Gregorian leap-year rule. -/
def isLeap (y : Nat) : Bool := decide ((y % 4 = 0 ∧ y % 100 ≠ 0) ∨ y % 400 = 0)

/-- Length in days of month `m` (1-based) of year `y`. -/
def daysInMonth (y m : Nat) : Nat :=
  if m = 2 then (if isLeap y then 29 else 28)
  else if m = 4 ∨ m = 6 ∨ m = 9 ∨ m = 11 then 30
  else 31

/-- Days from 1970-01-01 to January 1 of year `y` (for `y ≥ 1970`). -/
def daysBeforeYear (y : Nat) : Nat :=
  (List.range (y - 1970)).foldl
    (fun acc i => acc + (if isLeap (1970 + i) then 366 else 365)) 0

/-- Days from the start of year `y` to the first day of month `m` (1-based). -/
def daysBeforeMonth (y m : Nat) : Nat :=
  (List.range (m - 1)).foldl (fun acc i => acc + daysInMonth y (i + 1)) 0

/-- Millisecond timestamp of midnight of the given calendar day. -/
def epochMs (y m d : Nat) : Int :=
  ((daysBeforeYear y + daysBeforeMonth y m + (d - 1) : Nat) : Int) * msPerDay

/-- Splitting a character list at every '-' (the groups between dashes). -/
def splitDash : List Char → List (List Char)
  | [] => [[]]
  | c :: cs =>
      if c == '-' then [] :: splitDash cs
      else
        match splitDash cs with
        | [] => [[c]]
        | g :: gs => (c :: g) :: gs

/-- Numeric value of a list of ASCII digits. -/
def digitsVal (l : List Char) : Nat :=
  l.foldl (fun acc c => acc * 10 + (c.toNat - 48)) 0

/-- Models the JavaScript `new Date(string)` / `Date.parse` time value for the
dash-separated year-month-day strings this service receives: a four-digit
year with one- or two-digit month and day parses to midnight of that calendar
day (both the strict ISO `YYYY-MM-DD` form and the lenient engine fallback
such as `2024-3-4`); out-of-range components or any other shape give an
Invalid Date (`none`).  Time-of-day suffixes, time zones and years before
1970 are outside the modelled range. -/
def jsDateParse (s : String) : Option Int :=
  match splitDash s.data with
  | [ys, ms, ds] =>
      if ys.all isDigitCh && decide (ys.length = 4) &&
          ms.all isDigitCh && decide (1 ≤ ms.length ∧ ms.length ≤ 2) &&
          ds.all isDigitCh && decide (1 ≤ ds.length ∧ ds.length ≤ 2) then
        let y := digitsVal ys
        let m := digitsVal ms
        let d := digitsVal ds
        if decide (1970 ≤ y ∧ 1 ≤ m ∧ m ≤ 12 ∧ 1 ≤ d ∧ d ≤ daysInMonth y m) then
          some (epochMs y m d)
        else none
      else none
  | _ => none

/-- Value of a JavaScript `Date`-typed column position: SQL `NULL`, an
Invalid Date object (`NaN` time value), or a definite moment. -/
inductive DbDate where
  | null : DbDate
  | invalid : DbDate
  | moment : Int → DbDate
  deriving DecidableEq, Repr

/-- Constructing `new Date(s)`: always a `Date` object, invalid when the
string does not parse. -/
def jsNewDate (s : String) : DbDate :=
  match jsDateParse s with
  | some t => DbDate.moment t
  | none => DbDate.invalid

/-- The service `calendarEventService._validateDate(date)`: a falsy string
yields `null`; a string failing the strict `YYYY-MM-DD` regex throws; a
regex-matching string whose `Date` value is `NaN` throws; otherwise the
parsed `Date` is returned. -/
def validateDate (date : String) : Except String (Option Int) :=
  if date = "" then Except.ok none
  else if !dateRegexMatch date then
    Except.error "Invalid date format. Use YYYY-MM-DD"
  else
    match jsDateParse date with
    | none => Except.error "Invalid date value"
    | some t => Except.ok (some t)

/-- Body of `POST /api/reminders` after the route's required-field check
(`userId`, `title`, `dueDate` present). -/
structure CreateInput where
  userId : String
  title : String
  dueDate : String
  repeatType : Option String
  repeatUntil : Option String
  interval : Option Int
  deriving DecidableEq, Repr

/-- Data object handed to `prisma.reminder.create` by
`reminderService.create`. -/
structure ReminderCreateData where
  userId : String
  title : String
  dueDate : DbDate
  repeatType : Option String
  repeatUntil : DbDate
  interval : Option Int
  deriving DecidableEq, Repr

/-- The service `reminderService.create(reminderData)`: builds the create
data with `dueDate: new Date(reminderData.dueDate)` and
`repeatUntil: reminderData.repeatUntil ? new Date(reminderData.repeatUntil) : null`.
No format validation is performed on either string. -/
def reminderCreateData (i : CreateInput) : ReminderCreateData :=
  { userId := i.userId
    title := i.title
    dueDate := jsNewDate i.dueDate
    repeatType := i.repeatType
    repeatUntil :=
      match i.repeatUntil with
      | some s => if s = "" then DbDate.null else jsNewDate s
      | none => DbDate.null
    interval := i.interval }

/-- Body of `PUT /api/reminders/:id` as destructured by the route: each of
the five fields is `undefined` (`none`) when absent from the request. -/
structure UpdateBody where
  title : Option String
  dueDate : Option String
  repeatType : Option String
  repeatUntil : Option String
  interval : Option Int
  deriving DecidableEq, Repr

/-- Data object handed to `prisma.reminder.update` by
`reminderService.update`: the spread of the body with `dueDate` and
`repeatUntil` overridden by `field ? new Date(field) : undefined`.  An outer
`none` is an `undefined` entry, which Prisma skips. -/
structure ReminderUpdateData where
  title : Option String
  repeatType : Option String
  interval : Option Int
  dueDate : Option DbDate
  repeatUntil : Option DbDate
  deriving DecidableEq, Repr

/-- The service `reminderService.update(reminderId, reminderData)` data
construction. -/
def reminderUpdateData (b : UpdateBody) : ReminderUpdateData :=
  { title := b.title
    repeatType := b.repeatType
    interval := b.interval
    dueDate :=
      match b.dueDate with
      | some s => if s = "" then none else some (jsNewDate s)
      | none => none
    repeatUntil :=
      match b.repeatUntil with
      | some s => if s = "" then none else some (jsNewDate s)
      | none => none }

/-- Prisma semantics of one non-nullable DateTime entry of an update data
object: `undefined` keeps the current value, a valid `Date` replaces it, an
Invalid Date or explicit null is rejected by the client. -/
def prismaApplyDateField (cur : Int) (v : Option DbDate) : Except String Int :=
  match v with
  | none => Except.ok cur
  | some (DbDate.moment t) => Except.ok t
  | some DbDate.invalid => Except.error "Provided Date object is invalid"
  | some DbDate.null => Except.error "Argument must not be null"

/-- Prisma semantics of one nullable DateTime entry of an update data
object. -/
def prismaApplyNullableDateField (cur : Option Int) (v : Option DbDate) :
    Except String (Option Int) :=
  match v with
  | none => Except.ok cur
  | some DbDate.null => Except.ok none
  | some (DbDate.moment t) => Except.ok (some t)
  | some DbDate.invalid => Except.error "Provided Date object is invalid"

/-- Applying an update data object to the matched record. -/
def applyReminderUpdate (r : Reminder) (d : ReminderUpdateData) :
    Except String Reminder :=
  match prismaApplyDateField r.dueDate d.dueDate with
  | Except.error e => Except.error e
  | Except.ok due =>
      match prismaApplyNullableDateField r.repeatUntil d.repeatUntil with
      | Except.error e => Except.error e
      | Except.ok ru =>
          Except.ok { r with
            title := d.title.getD r.title
            repeatType := d.repeatType.getD r.repeatType
            interval := d.interval.getD r.interval
            dueDate := due
            repeatUntil := ru }

/-- The service `reminderService.update` against the store: P2025 when the
record is missing, otherwise the update data applied to the matched row. -/
def reminderServiceUpdate (store : List Reminder) (rid : String)
    (b : UpdateBody) : Except String (List Reminder × Reminder) :=
  match findReminder store rid with
  | none => Except.error "P2025: record to update not found"
  | some r =>
      match applyReminderUpdate r (reminderUpdateData b) with
      | Except.ok r2 => Except.ok (replaceReminder store rid r2, r2)
      | Except.error e => Except.error e

/-- Leading ASCII digits of a character list. -/
def takeDigits : List Char → List Char
  | [] => []
  | c :: cs => if isDigitCh c then c :: takeDigits cs else []

/-- Models the JavaScript `parseInt(string)` (radix 10): skip leading
whitespace, read an optional sign and then the maximal run of digits; `NaN`
(`none`) when no digit follows. -/
def jsParseIntStr (s : String) : Option Int :=
  let cs := s.data.dropWhile
    (fun c => c == ' ' || c == '\t' || c == '\n' || c == '\r')
  let sd : Int × List Char :=
    match cs with
    | '-' :: t => (-1, takeDigits t)
    | '+' :: t => (1, takeDigits t)
    | t => (1, takeDigits t)
  if sd.2 = [] then none else some (sd.1 * (digitsVal sd.2 : Int))

/-- Applying `parseInt` to `req.query.days`, which is `undefined` when the
query parameter is missing (`parseInt(undefined)` is `NaN`). -/
def jsParseInt (q : Option String) : Option Int :=
  match q with
  | none => none
  | some s => jsParseIntStr s

/-- The route expression `parseInt(req.query.days) || 7`: the parsed value
unless it is `NaN` or `0`, in which case the default 7. -/
def parseDaysParam (q : Option String) : Int :=
  match jsParseInt q with
  | none => 7
  | some n => if n = 0 then 7 else n

/-- Route `GET /api/reminders/upcoming/:userId`: parses the `days` query
parameter and calls `reminderService.getUpcoming`. -/
def upcomingReminderRoute (store : List Reminder) (uid : String)
    (q : Option String) (now : Int) : List Reminder :=
  getUpcoming store uid now (parseDaysParam q)

/-- Success test of an `Except` result (the call did not throw). -/
def isOkB {α : Type} (e : Except String α) : Bool :=
  match e with
  | Except.ok _ => true
  | Except.error _ => false

/-- A daily reminder whose rule is far from exhausted (`repeatUntil` about
ten years past the anchor). -/
def cRec : Reminder :=
  { id := "r1", userId := "u1", title := "run", dueDate := 0,
    repeatType := "daily", repeatUntil := some (addDays 0 3650),
    interval := 1, completed := false }

/-- A one-time reminder due one day into the window. -/
def cOne : Reminder :=
  { id := "one1", userId := "u1", title := "stretch", dueDate := msPerDay,
    repeatType := "none", repeatUntil := none, interval := 1,
    completed := false }

/-- An uncompleted one-time reminder already one day overdue. -/
def cLate : Reminder :=
  { id := "late1", userId := "u1", title := "overdue", dueDate := -msPerDay,
    repeatType := "none", repeatUntil := none, interval := 1,
    completed := false }

/-- First of two reminders sharing a due moment; its id sorts second. -/
def cTieB : Reminder :=
  { id := "b", userId := "u1", title := "tie b", dueDate := msPerDay,
    repeatType := "none", repeatUntil := none, interval := 1,
    completed := false }

/-- Second of two reminders sharing a due moment; its id sorts first. -/
def cTieA : Reminder :=
  { id := "a", userId := "u1", title := "tie a", dueDate := msPerDay,
    repeatType := "none", repeatUntil := none, interval := 1,
    completed := false }

/-- A create request whose due date string is not in strict `YYYY-MM-DD`
form (single-digit month and day). -/
def c4CreateInput : CreateInput :=
  { userId := "u1", title := "hydrate", dueDate := "2024-3-4",
    repeatType := some "none", repeatUntil := none, interval := some 1 }

/-- An update request whose due date string is not in strict `YYYY-MM-DD`
form. -/
def c4UpdateBody : UpdateBody :=
  { title := none, dueDate := some "2024-3-4", repeatType := none,
    repeatUntil := none, interval := none }

/-- An update request body with every field absent. -/
def bodyNone : UpdateBody :=
  { title := none, dueDate := none, repeatType := none, repeatUntil := none,
    interval := none }

/-- Membership characterization of `getUpcoming`: the rows of the user that
are not completed and are due no later than `now + days` days, nothing
else. -/
theorem mem_getUpcoming {store : List Reminder} {uid : String} {now days : Int}
    {r : Reminder} :
    r ∈ getUpcoming store uid now days ↔
      r ∈ store ∧ r.userId = uid ∧ r.completed = false ∧
        r.dueDate ≤ addDays now days := by
  unfold getUpcoming
  rw [List.mem_insertionSort, List.mem_filter]
  simp [Bool.and_eq_true, beq_iff_eq, Bool.not_eq_true', decide_eq_true_eq,
    and_assoc]

/-- A record found by id carries that id. -/
theorem findReminder_id {store : List Reminder} {rid : String} {r : Reminder}
    (h : findReminder store rid = some r) : r.id = rid := by
  have hp := List.find?_some h
  simpa using hp

/-- After writing `r2` under an id that was present, the lookup returns
`r2`. -/
theorem findReminder_replace {store : List Reminder} {rid : String}
    {r r2 : Reminder} (hfind : findReminder store rid = some r)
    (h2 : r2.id = rid) :
    findReminder (replaceReminder store rid r2) rid = some r2 := by
  induction store with
  | nil => simp [findReminder] at hfind
  | cons x xs ih =>
      by_cases hx : x.id = rid
      · simp [findReminder, replaceReminder, List.find?, hx, h2]
      · have hstep : replaceReminder (x :: xs) rid r2 =
            x :: replaceReminder xs rid r2 := by
          simp [replaceReminder, hx]
        rw [hstep]
        have hxb : (x.id == rid) = false := by simp [hx]
        unfold findReminder at hfind ⊢
        simp only [List.find?, hxb] at hfind ⊢
        exact ih hfind

/-- Writing the same record twice under its own id changes nothing the
second time. -/
theorem replaceReminder_self {store : List Reminder} {rid : String}
    {r2 : Reminder} (h2 : r2.id = rid) :
    replaceReminder (replaceReminder store rid r2) rid r2 =
      replaceReminder store rid r2 := by
  induction store with
  | nil => rfl
  | cons x xs ih =>
      simp only [replaceReminder, List.map_cons] at *
      by_cases hx : x.id = rid <;>
        simp [hx, h2, ih] <;>
        (intro a _ hida
         by_cases hia : a.id = rid
         · simp [hia]
         · simp [hia] at hida)

/-- Characters with equal code points are equal. -/
theorem char_eq_of_toNat_eq {a b : Char} (h : a.toNat = b.toNat) : a = b :=
  Char.ext (UInt32.ext h)

/-- Semantics of the `_validateTime` regex: a full match is exactly a
one-digit hour or a two-digit hour of value at most 23, a colon, and a
two-digit minute of value at most 59. -/
theorem timeRegexMatch_iff (l : List Char) :
    timeRegexMatch l = true ↔
      (∃ h m1 m2, l = [h, ':', m1, m2] ∧ isDigitCh h = true ∧
        isDigitCh m1 = true ∧ isDigitCh m2 = true ∧
        (m1.toNat - 48) * 10 + (m2.toNat - 48) ≤ 59) ∨
      (∃ h1 h2 m1 m2, l = [h1, h2, ':', m1, m2] ∧ isDigitCh h1 = true ∧
        isDigitCh h2 = true ∧ isDigitCh m1 = true ∧ isDigitCh m2 = true ∧
        (h1.toNat - 48) * 10 + (h2.toNat - 48) ≤ 23 ∧
        (m1.toNat - 48) * 10 + (m2.toNat - 48) ≤ 59) := by
  rcases l with _ | ⟨a, _ | ⟨b, _ | ⟨c, _ | ⟨d, _ | ⟨e, _ | ⟨f, rest⟩⟩⟩⟩⟩⟩
  · simp [timeRegexMatch]
  · simp [timeRegexMatch]
  · simp [timeRegexMatch]
  · simp [timeRegexMatch]
  · -- four characters: the single-digit-hour alternative of the regex
    simp only [timeRegexMatch, isDigitCh, Bool.and_eq_true, beq_iff_eq,
      decide_eq_true_eq, List.cons.injEq, and_true, List.cons_ne_nil]
    constructor
    · rintro ⟨⟨⟨ha, hb⟩, hc⟩, hd⟩
      refine Or.inl ⟨a, c, d, ⟨rfl, hb, rfl, rfl⟩, ?_, ?_, ?_, ?_⟩ <;> omega
    · rintro (⟨h, m1, m2, ⟨rfl, rfl, rfl, rfl⟩, hh, hm1, hm2, hv⟩ |
        ⟨h1, h2, m1, m2, hbad⟩)
      · refine ⟨⟨⟨?_, rfl⟩, ?_⟩, ?_⟩ <;> omega
      · simp at hbad
  · -- five characters: the two-digit-hour alternatives of the regex
    simp only [timeRegexMatch, isDigitCh, Bool.and_eq_true, Bool.or_eq_true,
      beq_iff_eq, decide_eq_true_eq, List.cons.injEq, and_true,
      List.cons_ne_nil]
    constructor
    · rintro ⟨⟨⟨⟨ha, hb⟩ | ⟨rfl, hb⟩, rfl⟩, hm1⟩, hm2⟩
      · refine Or.inr ⟨a, b, d, e, ⟨rfl, rfl, rfl, rfl, rfl⟩,
          ?_, ?_, ?_, ?_, ?_, ?_⟩ <;> omega
      · have h2n : ('2' : Char).toNat = 50 := rfl
        refine Or.inr ⟨'2', b, d, e, ⟨rfl, rfl, rfl, rfl, rfl⟩,
          ?_, ?_, ?_, ?_, ?_, ?_⟩ <;> omega
    · rintro (⟨h, m1, m2, hbad⟩ |
        ⟨h1, h2, m1, m2, ⟨rfl, rfl, rfl, rfl, rfl⟩, hd1, hd2, hm1, hm2, hhr, hmn⟩)
      · simp at hbad
      · have hhour : ((48 ≤ a.toNat ∧ a.toNat ≤ 49) ∧
            (48 ≤ b.toNat ∧ b.toNat ≤ 57)) ∨
            (a = '2' ∧ (48 ≤ b.toNat ∧ b.toNat ≤ 51)) := by
          by_cases h49 : a.toNat ≤ 49
          · exact Or.inl (by omega)
          · have h50 : a.toNat = 50 := by omega
            have ha2 : a = '2' := char_eq_of_toNat_eq (by rw [h50]; rfl)
            have h2n : ('2' : Char).toNat = 50 := rfl
            refine Or.inr ⟨ha2, ?_⟩
            omega
        exact ⟨⟨⟨hhour, rfl⟩, by omega⟩, by omega⟩
  · simp [timeRegexMatch]

/-- C1, counterexample: a daily reminder with a far-away `repeatUntil` (rule
not exhausted) is marked completed, yet `markCompleted` does set
`completed = true` on it, contradicting the claim that a recurring task
keeps `completed = false` and only records the completed occurrence. -/
theorem c1_counterexample :
    cRec.repeatType ≠ "none" ∧ cRec.completed = false ∧
    markCompleted [cRec] "r1" =
      Except.ok ([{ cRec with completed := true }],
        { cRec with completed := true }) ∧
    ({ cRec with completed := true }).completed = true := by
  exact ⟨by decide, rfl, rfl, rfl⟩

/-- C1, amended: for every stored task with a recurring repeat type,
`markCompleted` sets `completed = true` unconditionally — the record has no
`lastCompletedOccurrence` field and no exhaustion computation is performed. -/
theorem c1_markCompleted_always_completes (store : List Reminder)
    (rid : String) (r : Reminder) (hfind : findReminder store rid = some r)
    (_hrec : r.repeatType ≠ "none") :
    markCompleted store rid =
      Except.ok (replaceReminder store rid { r with completed := true },
        { r with completed := true }) := by
  simp [markCompleted, prismaReminderUpdate, hfind]

/-- C1, witness: the amended theorem applied to the concrete daily task. -/
theorem c1_witness :
    markCompleted [cRec] "r1" =
      Except.ok (replaceReminder [cRec] "r1" { cRec with completed := true },
        { cRec with completed := true }) :=
  c1_markCompleted_always_completes [cRec] "r1" cRec rfl (by decide)

/-- C2, counterexample: completing one occurrence of a daily reminder whose
rule is not exhausted (its next occurrence is well before `repeatUntil`)
removes it from the upcoming query permanently, contradicting the claim that
a recurring task is returned again after one occurrence is completed. -/
theorem c2_counterexample :
    (completeReminderRoute [cRec] "r1").2 = [{ cRec with completed := true }] ∧
    getUpcoming (completeReminderRoute [cRec] "r1").2 "u1" 0 7 = [] ∧
    cRec.repeatType = "daily" ∧
    addDays cRec.dueDate cRec.interval ≤ cRec.repeatUntil.getD 0 := by
  exact ⟨rfl, rfl, rfl, by decide⟩

/-- C2, amended: the upcoming query returns exactly the user's tasks with
`completed = false` and `dueDate` at most `now + horizon` days — no
recurrence computation is performed, a completed one-time task is never
returned, and a completed recurring task is likewise never returned whether
or not its rule is exhausted. -/
theorem c2_upcoming_characterization (store : List Reminder) (uid : String)
    (now days : Int) (r : Reminder) :
    r ∈ getUpcoming store uid now days ↔
      r ∈ store ∧ r.userId = uid ∧ r.completed = false ∧
        r.dueDate ≤ addDays now days :=
  mem_getUpcoming

/-- C3, counterexample: an uncompleted reminder already one day overdue is
returned by the upcoming query, contradicting the claim that no returned
occurrence is strictly before `now`. -/
theorem c3_counterexample :
    getUpcoming [cLate] "u1" 0 7 = [cLate] ∧ cLate.dueDate < 0 :=
  ⟨rfl, by decide⟩

/-- C3, amended: every task returned by the upcoming query has its due
moment at most `now + horizon` days; there is no lower bound, so overdue
tasks are returned as well. -/
theorem c3_upcoming_upper_bound (store : List Reminder) (uid : String)
    (now days : Int) (r : Reminder) (h : r ∈ getUpcoming store uid now days) :
    r.dueDate ≤ addDays now days :=
  (mem_getUpcoming.mp h).2.2.2

/-- C3, witness: the amended bound at the concrete in-window reminder. -/
theorem c3_witness : cOne.dueDate ≤ addDays 0 7 :=
  c3_upcoming_upper_bound [cOne] "u1" 0 7 cOne (by decide)

/-- C4: the string `2024-3-4` fails the strict `YYYY-MM-DD` validator used
for calendar events, yet `reminderService.create` coerces it through
`new Date` into the stored due date without any validation error, and
`reminderService.update` stores it the same way — the reminder paths
silently coerce malformed date strings instead of rejecting them. -/
theorem c4_reminder_paths_coerce_malformed_date :
    dateRegexMatch "2024-3-4" = false ∧
    validateDate "2024-3-4" =
      Except.error "Invalid date format. Use YYYY-MM-DD" ∧
    (reminderCreateData c4CreateInput).dueDate =
      DbDate.moment (epochMs 2024 3 4) ∧
    reminderServiceUpdate [cOne] "one1" c4UpdateBody =
      Except.ok ([{ cOne with dueDate := epochMs 2024 3 4 }],
        { cOne with dueDate := epochMs 2024 3 4 }) := by
  exact ⟨rfl, rfl, rfl, rfl⟩

/-- C5, counterexample: deleting an id that does not exist is reported as a
500 failure (Prisma throws P2025 and the route catches it), not as success,
and the non-delete complete operation on a missing id is also a 500, not a
404. -/
theorem c5_counterexample :
    (deleteReminderRoute [] "ghost").1 = { status := 500, success := false } ∧
    (completeReminderRoute [] "ghost").1 =
      { status := 500, success := false } :=
  ⟨rfl, rfl⟩

/-- C5, amended: every operation on a missing task id — delete included —
is surfaced as a 500 error response; deletes are not idempotent and nothing
returns 404. -/
theorem c5_missing_id_is_500 (store : List Reminder) (rid : String)
    (h : findReminder store rid = none) :
    (deleteReminderRoute store rid).1 = { status := 500, success := false } ∧
    (completeReminderRoute store rid).1 =
      { status := 500, success := false } := by
  constructor <;>
    simp [deleteReminderRoute, completeReminderRoute, prismaReminderDelete,
      markCompleted, prismaReminderUpdate, h]

/-- C5, witness: the amended statement at the empty store. -/
theorem c5_witness :
    (deleteReminderRoute [] "ghost").1 = { status := 500, success := false } ∧
    (completeReminderRoute [] "ghost").1 =
      { status := 500, success := false } :=
  c5_missing_id_is_500 [] "ghost" rfl

/-- C6, counterexample: two reminders share a due moment and arrive in store
order `b` before `a`; the upcoming query keeps that order, so the tie is not
broken by task id (`a` sorts before `b`). -/
theorem c6_counterexample :
    getUpcoming [cTieB, cTieA] "u1" 0 7 = [cTieB, cTieA] ∧
    cTieB.dueDate = cTieA.dueDate ∧
    cTieA.id.data = ['a'] ∧ cTieB.id.data = ['b'] ∧ ('a' : Char) < 'b' := by
  exact ⟨rfl, rfl, rfl, rfl, by decide⟩

/-- C6, amended: the upcoming query is sorted ascending by due moment
(`orderBy dueDate asc`); the relative order of entries with equal due
moments is not determined by task id. -/
theorem c6_upcoming_sorted_by_dueDate (store : List Reminder) (uid : String)
    (now days : Int) :
    List.Sorted dueLE (getUpcoming store uid now days) :=
  List.sorted_insertionSort dueLE _

/-- C7, counterexample: the single-digit-hour string `9:30` is accepted by
the time validator, contradicting the claim that only strict two-digit
`HH:mm` strings succeed. -/
theorem c7_counterexample :
    validateTime "9:30" = Except.ok (some "9:30") := rfl

/-- C7, amended: time validation succeeds exactly on the empty (falsy)
string and on strings of the shape `H:mm` or `HH:mm` where the hour is one
digit, or two digits of value at most 23, and the minute is two digits of
value at most 59 — single-digit hours are accepted, not rejected. -/
theorem c7_validateTime_characterization (s : String) :
    isOkB (validateTime s) = true ↔
      s = "" ∨
      (∃ h m1 m2, s.data = [h, ':', m1, m2] ∧ isDigitCh h = true ∧
        isDigitCh m1 = true ∧ isDigitCh m2 = true ∧
        (m1.toNat - 48) * 10 + (m2.toNat - 48) ≤ 59) ∨
      (∃ h1 h2 m1 m2, s.data = [h1, h2, ':', m1, m2] ∧ isDigitCh h1 = true ∧
        isDigitCh h2 = true ∧ isDigitCh m1 = true ∧ isDigitCh m2 = true ∧
        (h1.toNat - 48) * 10 + (h2.toNat - 48) ≤ 23 ∧
        (m1.toNat - 48) * 10 + (m2.toNat - 48) ≤ 59) := by
  rw [validateTime]
  by_cases hs : s = ""
  · simp [hs, isOkB]
  · simp only [hs, if_false, false_or]
    rw [← timeRegexMatch_iff s.data]
    by_cases htm : timeRegexMatch s.data = true <;> simp [htm, isOkB]

/-- C8: marking a non-recurring reminder completed twice succeeds both times
and the second call changes nothing — store and returned record are
identical to the first call's. -/
theorem c8_markCompleted_idempotent (store : List Reminder) (rid : String)
    (r : Reminder) (hfind : findReminder store rid = some r)
    (_hnone : r.repeatType = "none") :
    ∃ st r2, markCompleted store rid = Except.ok (st, r2) ∧
      markCompleted st rid = Except.ok (st, r2) := by
  have hid : r.id = rid := findReminder_id hfind
  have h2 : ({ r with completed := true } : Reminder).id = rid := hid
  refine ⟨replaceReminder store rid { r with completed := true },
    { r with completed := true }, ?_, ?_⟩
  · simp [markCompleted, prismaReminderUpdate, hfind]
  · have hf2 := findReminder_replace hfind h2
    simp [markCompleted, prismaReminderUpdate, hf2]
    exact replaceReminder_self h2

/-- C8, witness: idempotence at the concrete one-time reminder. -/
theorem c8_witness :
    ∃ st r2, markCompleted [cOne] "one1" = Except.ok (st, r2) ∧
      markCompleted st "one1" = Except.ok (st, r2) :=
  c8_markCompleted_idempotent [cOne] "one1" cOne rfl rfl

/-- C9: in a successful `PUT /reminders/:id` update, every one of the five
body fields that is absent (`undefined`) leaves the corresponding stored
field unchanged — absent fields are skipped, not overwritten. -/
theorem c9_update_absent_fields (store : List Reminder) (rid : String)
    (b : UpdateBody) (r : Reminder) (st : List Reminder) (r2 : Reminder)
    (hfind : findReminder store rid = some r)
    (hok : reminderServiceUpdate store rid b = Except.ok (st, r2)) :
    (b.title = none → r2.title = r.title) ∧
    (b.dueDate = none → r2.dueDate = r.dueDate) ∧
    (b.repeatType = none → r2.repeatType = r.repeatType) ∧
    (b.repeatUntil = none → r2.repeatUntil = r.repeatUntil) ∧
    (b.interval = none → r2.interval = r.interval) := by
  unfold reminderServiceUpdate at hok
  rw [hfind] at hok
  dsimp only at hok
  rcases happ : applyReminderUpdate r (reminderUpdateData b) with e | r3
  · rw [happ] at hok; cases hok
  · rw [happ] at hok
    simp only [Except.ok.injEq, Prod.mk.injEq] at hok
    obtain ⟨hst, hr2⟩ := hok
    subst hr2
    unfold applyReminderUpdate at happ
    rcases hdue : prismaApplyDateField r.dueDate (reminderUpdateData b).dueDate
      with e | due
    · rw [hdue] at happ; cases happ
    · rw [hdue] at happ
      rcases hru : prismaApplyNullableDateField r.repeatUntil
          (reminderUpdateData b).repeatUntil with e | ru
      · rw [hru] at happ; cases happ
      · rw [hru] at happ
        simp only [Except.ok.injEq] at happ
        subst happ
        refine ⟨?_, ?_, ?_, ?_, ?_⟩ <;> intro hb
        · simp [reminderUpdateData, hb]
        · have hd : (reminderUpdateData b).dueDate = none := by
            simp [reminderUpdateData, hb]
          rw [hd] at hdue
          simp [prismaApplyDateField] at hdue
          simp [hdue]
        · simp [reminderUpdateData, hb]
        · have hc : (reminderUpdateData b).repeatUntil = none := by
            simp [reminderUpdateData, hb]
          rw [hc] at hru
          simp [prismaApplyNullableDateField] at hru
          simp [hru]
        · simp [reminderUpdateData, hb]

/-- C9, witness: the frame property at the concrete reminder with the
all-absent body. -/
theorem c9_witness :
    (bodyNone.title = none → cOne.title = cOne.title) ∧
    (bodyNone.dueDate = none → cOne.dueDate = cOne.dueDate) ∧
    (bodyNone.repeatType = none → cOne.repeatType = cOne.repeatType) ∧
    (bodyNone.repeatUntil = none → cOne.repeatUntil = cOne.repeatUntil) ∧
    (bodyNone.interval = none → cOne.interval = cOne.interval) :=
  c9_update_absent_fields [cOne] "one1" bodyNone cOne [cOne] cOne rfl rfl

/-- C10: the `days` query parameter falls back to the 7-day default when
missing or when `parseInt` yields `NaN` or `0`, and the parsed value is used
exactly when it is a nonzero number. -/
theorem c10_days_param_default (store : List Reminder) (uid : String)
    (now : Int) :
    (∀ q, jsParseInt q = none →
      upcomingReminderRoute store uid q now = getUpcoming store uid now 7) ∧
    (∀ q, jsParseInt q = some 0 →
      upcomingReminderRoute store uid q now = getUpcoming store uid now 7) ∧
    upcomingReminderRoute store uid none now = getUpcoming store uid now 7 ∧
    upcomingReminderRoute store uid (some "soon") now =
      getUpcoming store uid now 7 ∧
    upcomingReminderRoute store uid (some "0") now =
      getUpcoming store uid now 7 ∧
    (∀ q n, jsParseInt q = some n → n ≠ 0 →
      upcomingReminderRoute store uid q now = getUpcoming store uid now n) := by
  refine ⟨?_, ?_, rfl, rfl, rfl, ?_⟩
  · intro q hq
    simp [upcomingReminderRoute, parseDaysParam, hq]
  · intro q hq
    simp [upcomingReminderRoute, parseDaysParam, hq]
  · intro q n hq hn
    simp [upcomingReminderRoute, parseDaysParam, hq, hn]

/-- C10, witness: a nonzero numeric `days` value is used as the horizon. -/
theorem c10_witness :
    upcomingReminderRoute [] "u1" (some "14") 0 = getUpcoming [] "u1" 0 14 :=
  (c10_days_param_default [] "u1" 0).2.2.2.2.2 (some "14") 14 rfl (by decide)

end ReminderApp
